import Mathlib

/-!
# Verification of the `mattermost_api` client library

A shallow embedding of the core logic of the `mattermost_api` Rust crate
(`src/client.rs`, `src/errors.rs`, `src/socket.rs`, `src/models.rs`), with
theorems settling the behavioural claims about URL construction, session
token handling, REST response classification, and the WebSocket event loop.

External collaborators (the `reqwest` HTTP transport, the `url` crate's
parser, `serde_json`, the `tungstenite` WebSocket transport) are modelled as
follows: HTTP/WebSocket traffic appears as explicit response values and
message lists; JSON (de)serialization appears as quantified decode functions
`String → Option α`; the `url` crate's already-parsed `Url` values appear as
a record of scheme, host, port and path segments, with relative-reference
joining modelled after the WHATWG path-resolution algorithm the crate
implements.
-/

namespace Mattermost

/-! ## URL model

Models `url::Url` values as parsed by `Url::parse` for special (http/https)
schemes: a scheme, a host, an optional port, and the path as a list of
segments.  The WHATWG serialization writes one `/` before every segment, so
the root path `/` is the single segment list `[""]` and `/api/v4/` is
`["api", "v4", ""]`. -/

structure Url where
  scheme : String
  host : String
  port : Option Nat
  pathSegments : List String
deriving Repr, DecidableEq

/-- The serialized path of a `Url`, as returned by `url::Url::path()`:
one `/` before every segment. -/
def pathString (u : Url) : String :=
  u.pathSegments.foldl (fun acc s => acc ++ "/" ++ s) ""

/-- Split a character list on a separator character; always returns at
least one (possibly empty) chunk, like splitting a string on `/`. -/
def splitOnChar (sep : Char) : List Char → List (List Char)
  | [] => [[]]
  | c :: rest =>
    match splitOnChar sep rest with
    | [] => [[]]
    | chunk :: chunks =>
      if c == sep then [] :: chunk :: chunks else (c :: chunk) :: chunks

/-- Split a string into its `/`-separated segments. -/
def splitOnSlash (s : String) : List String :=
  (splitOnChar '/' s.data).map List.asString

/-- Rust's `str::trim_start_matches('/')`: drop every leading slash. -/
def trimStartSlashes (s : String) : String :=
  (s.data.dropWhile (· == '/')).asString

/-- WHATWG "shorten a url's path": remove the last path segment. Used by
path resolution when processing a `..` segment and to strip the base URL's
last segment before appending a relative reference. -/
def shortenPath (segs : List String) : List String :=
  segs.dropLast

/-- WHATWG path resolution over already-split relative-reference segments,
as implemented by the `url` crate's path state: a `..` segment pops the
accumulated path, a `.` segment is skipped, and when a dot segment is the
final segment an empty segment is appended so the path keeps its trailing
slash. -/
def resolvePath (acc : List String) : List String → List String
  | [] => acc
  | [s] =>
    if s == ".." then shortenPath acc ++ [""]
    else if s == "." then acc ++ [""]
    else acc ++ [s]
  | s :: s₂ :: rest =>
    if s == ".." then resolvePath (shortenPath acc) (s₂ :: rest)
    else if s == "." then resolvePath acc (s₂ :: rest)
    else resolvePath (acc ++ [s]) (s₂ :: rest)

/-- Models `url::Url::join` for relative path references: inputs with no
scheme or authority, no leading `/`, and no query or fragment part — the
shape of input `endpoint_url` produces after stripping leading slashes.
Only the path is rewritten: the base's last segment is dropped and the
reference's slash-separated segments are resolved against the rest. -/
def Url.join (u : Url) (input : String) : Url :=
  { u with pathSegments := resolvePath (shortenPath u.pathSegments) (splitOnSlash input) }

/-! ## Authentication data (`src/client.rs`, `AuthenticationData`) -/

/-- Authentication data: either a login_id and password or a personal
access token (`AuthenticationData` in `src/client.rs`). -/
structure AuthenticationData where
  login_id : Option String
  password : Option String
  token : Option String
deriving Repr, DecidableEq

/-- `AuthenticationData::from_password`. -/
def AuthenticationData.from_password (login_id password : String) : AuthenticationData :=
  { login_id := some login_id, password := some password, token := none }

/-- `AuthenticationData::from_access_token`. -/
def AuthenticationData.from_access_token (token : String) : AuthenticationData :=
  { login_id := none, password := none, token := some token }

/-- `AuthenticationData::using_password`. -/
def AuthenticationData.using_password (a : AuthenticationData) : Bool :=
  a.password.isSome

/-- `AuthenticationData::using_token`. -/
def AuthenticationData.using_token (a : AuthenticationData) : Bool :=
  a.token.isSome

/-! ## Error taxonomy (`src/errors.rs` plus the variants `src/client.rs`
constructs)

`MattermostError` is the structured platform error shape from
`src/models.rs`; `ApiError` merges the variants declared in `src/errors.rs`
with the `UrlError`, `WebsocketError` and `JsonProcessingError` variants
that `src/client.rs` constructs.  Payloads that are opaque foreign types
(`reqwest::Error`, `serde_json::Error`, tungstenite errors) are dropped. -/

structure MattermostError where
  id : String
  message : String
  request_id : String
  status_code : Nat
  is_oauth : Bool
deriving Repr, DecidableEq

inductive ApiError where
  | CouldNotGetToken (status : Nat)
  | MissingAuthToken
  | ReqwestError
  | ReqwestHeaderError
  | ReqwestHeaderValueError
  | HttpMethodError
  | MattermostApiError (e : MattermostError)
  | StatusCodeError (status : Nat)
  | UrlError
  | WebsocketError
  | JsonProcessingError
deriving Repr, DecidableEq

/-! ## Client state (`src/client.rs`, `Mattermost`) -/

/-- The `Mattermost` client struct: the normalized instance URL, the
authentication data, and the optional bearer token.  The `reqwest::Client`
handle carries no observable state and is omitted. -/
structure Client where
  instance_url : Url
  authentication_data : AuthenticationData
  auth_token : Option String
deriving Repr, DecidableEq

/-- `Mattermost::new`, after `Url::parse` has succeeded on the instance URL
string: the bearer token is seeded from the authentication data's access
token, and a root path (serialized `/`) is replaced by `/api/v4/`
(`set_path` parses it into the segments `["api", "v4", ""]`). -/
def Client.new (instance_url : Url) (authentication_data : AuthenticationData) : Client :=
  let url :=
    if pathString instance_url == "/" then
      { instance_url with pathSegments := ["api", "v4", ""] }
    else instance_url
  { instance_url := url
    authentication_data := authentication_data
    auth_token := authentication_data.token }

/-- `Mattermost::endpoint_url`: strips leading slashes from the endpoint and
joins the rest onto the instance URL. -/
def Client.endpoint_url (c : Client) (endpoint : String) : Url :=
  c.instance_url.join (trimStartSlashes endpoint)

/-- `Mattermost::ws_instance_url`: swap an http/https scheme for its
WebSocket equivalent, leaving everything else unchanged.  (`set_scheme`
succeeds for these pairs since all four schemes are special.) -/
def Client.ws_instance_url (c : Client) : Url :=
  let url := c.instance_url
  if url.scheme == "http" then { url with scheme := "ws" }
  else if url.scheme == "https" then { url with scheme := "wss" }
  else url

/-! ## Session token retrieval (`Mattermost::store_session_token`) -/

/-- The observable part of the HTTP response to the `users/login` POST:
its status code and the value of its `Token` header, if present.  Header
values are modelled as strings (the visible-ASCII values `to_str`
accepts). -/
structure LoginResponse where
  status : Nat
  token_header : Option String
deriving Repr, DecidableEq

/-- `Mattermost::store_session_token`.  With token authentication it is a
no-op returning success; otherwise the login request is issued and `resp`
is its response: a present `Token` header's value replaces the stored
bearer token, an absent header yields `CouldNotGetToken` carrying the
response's status code. -/
def Client.store_session_token (c : Client) (resp : LoginResponse) : Except ApiError Client :=
  if c.authentication_data.using_token then
    Except.ok c
  else
    match resp.token_header with
    | some session_token => Except.ok { c with auth_token := some session_token }
    | none => Except.error (ApiError.CouldNotGetToken resp.status)

/-! ## Request headers and response classification
(`Mattermost::request_headers`, `Mattermost::query`, `Mattermost::post`) -/

/-- Byte predicate of `http::HeaderValue::from_str` for ASCII strings:
visible characters, space and horizontal tab. -/
def valid_header_value (s : String) : Bool :=
  s.all fun c => (32 ≤ c.toNat && c.toNat ≠ 127) || c.toNat == 9

/-- `Mattermost::request_headers`: the three standard headers; a missing
bearer token yields `MissingAuthToken` (checked before the header value is
built), an invalid `Authorization` value yields the header-value error. -/
def Client.request_headers (c : Client) : Except ApiError (List (String × String)) :=
  match c.auth_token with
  | none => Except.error ApiError.MissingAuthToken
  | some token =>
    let auth := "Bearer " ++ token
    if valid_header_value auth then
      Except.ok [("Accept", "application/json"),
                 ("Content-Type", "application/json"),
                 ("Authorization", auth)]
    else Except.error ApiError.ReqwestHeaderValueError

/-- The observable part of a REST response: its status code and its body
text (`none` when `resp.text()`/`resp.json()` cannot read the body). -/
structure HttpResponse where
  status : Nat
  text : Option String
deriving Repr, DecidableEq

/-- `reqwest::StatusCode::is_success`: the 2xx range. -/
def statusIsSuccess (status : Nat) : Bool :=
  200 ≤ status && status < 300

/-- The response-classification tail of `Mattermost::query`
(`src/client.rs` lines 219–236).  `parseErr` models
`serde_json::from_str::<MattermostError>` and `decode` models
`resp.json::<T>()`; a body-read or decode failure on the success path is a
`reqwest` error. -/
def query_handle_response {T : Type} (parseErr : String → Option MattermostError)
    (decode : String → Option T) (resp : HttpResponse) : Except ApiError T :=
  if statusIsSuccess resp.status then
    match resp.text.bind decode with
    | some v => Except.ok v
    | none => Except.error ApiError.ReqwestError
  else
    match resp.text with
    | some text =>
      match parseErr text with
      | some data => Except.error (ApiError.MattermostApiError data)
      | none => Except.error (ApiError.StatusCodeError resp.status)
    | none => Except.error (ApiError.StatusCodeError resp.status)

/-- The response-classification tail of `Mattermost::post`
(`src/client.rs` lines 257–274), duplicated verbatim from `query` in the
source. -/
def post_handle_response {T : Type} (parseErr : String → Option MattermostError)
    (decode : String → Option T) (resp : HttpResponse) : Except ApiError T :=
  if statusIsSuccess resp.status then
    match resp.text.bind decode with
    | some v => Except.ok v
    | none => Except.error ApiError.ReqwestError
  else
    match resp.text with
    | some text =>
      match parseErr text with
      | some data => Except.error (ApiError.MattermostApiError data)
      | none => Except.error (ApiError.StatusCodeError resp.status)
    | none => Except.error (ApiError.StatusCodeError resp.status)

/-! ## WebSocket events (`src/socket.rs`) and the event loop
(`Mattermost::connect_to_websocket`, `receive_events`, `handle_event`) -/

/-- `WebsocketEventBroadcast` from `src/socket.rs`; the `omit_users` hash
map is modelled as an association list. -/
structure WebsocketEventBroadcast where
  omit_users : Option (List (String × Bool))
  user_id : Option String
  channel_id : String
  team_id : String
deriving Repr, DecidableEq

/-- `WebsocketEvent` from `src/socket.rs`; the free-form
`serde_json::Value` data payload is modelled as its serialized text. -/
structure WebsocketEvent where
  event : String
  data : String
  broadcast : WebsocketEventBroadcast
  seq : Nat
deriving Repr, DecidableEq

/-- `tungstenite::Message`, restricted to the shapes `handle_event`
distinguishes: text frames, close frames, and the rest (binary, ping,
pong), which all fall to the same catch-all arm. -/
inductive Message where
  | text (t : String)
  | close
  | binary (b : List Nat)
  | ping (b : List Nat)
  | pong (b : List Nat)
deriving Repr, DecidableEq

/-- Rust's `str::contains(&str)`: substring containment. -/
def strContains (s pat : String) : Bool :=
  (List.range (s.data.length + 1)).any fun i => pat.data.isPrefixOf (s.data.drop i)

/-- The authentication-challenge frame `connect_to_websocket` sends right
after the protocol upgrade: `{seq: 1, action: "authentication_challenge",
data: {token: <bearer>}}`. -/
structure AuthChallengeFrame where
  seq : Nat
  action : String
  token : String
deriving Repr, DecidableEq

/-- The frame-building step of `Mattermost::connect_to_websocket`
(`src/client.rs` line 336): the stored bearer token is read with
`.unwrap()`, so an absent token panics instead of producing an error
value — modelled as the `none` result. -/
def Client.connect_auth_frame (c : Client) : Option AuthChallengeFrame :=
  match c.auth_token with
  | some token => some { seq := 1, action := "authentication_challenge", token := token }
  | none => none

/-- `Mattermost::handle_event`.  `parse` models
`serde_json::from_str::<WebsocketEvent>`.  Returns the `Ok(bool)`
connection-closing flag paired with the sequence of handler invocations
the call performs (their `WebsocketEvent` arguments), or the error the
method returns.  A text frame containing `"seq_reply"` is skipped; other
text frames are parsed, a parse failure becoming `JsonProcessingError`
propagated by `?`; close frames report closing; every other frame is
ignored. -/
def Client.handle_event (parse : String → Option WebsocketEvent) (message : Message) :
    Except ApiError (Bool × List WebsocketEvent) :=
  match message with
  | Message.text text =>
    if strContains text "seq_reply" then
      Except.ok (false, [])
    else
      match parse text with
      | some as_struct => Except.ok (false, [as_struct])
      | none => Except.error ApiError.JsonProcessingError
  | Message.close => Except.ok (true, [])
  | _ => Except.ok (false, [])

/-- `Mattermost::receive_events` (the variant without the keep-alive
feature), run over a finite prefix of the inbound stream: each item is
either a transport-level receive error (payload dropped) or a message.
A transport error maps to `WebsocketError` and ends the loop; a
`handle_event` error propagates through `?`; a `true` closing flag breaks
the loop with success.  The result collects the handler invocations made
before the loop ended; the empty list models a stream with no further
items inside the observation window. -/
def Client.receive_events (parse : String → Option WebsocketEvent) :
    List (Except Unit Message) → Except ApiError (List WebsocketEvent)
  | [] => Except.ok []
  | Except.error _ :: _ => Except.error ApiError.WebsocketError
  | Except.ok message :: rest =>
    match Client.handle_event parse message with
    | Except.error e => Except.error e
    | Except.ok (true, calls) => Except.ok calls
    | Except.ok (false, calls) =>
      match Client.receive_events parse rest with
      | Except.ok more => Except.ok (calls ++ more)
      | Except.error e => Except.error e

/-! ## Concrete fixtures for witnesses and counterexamples -/

/-- `http://host` with an access token, as normalized by `Mattermost::new`. -/
def cHttp : Client :=
  Client.new ⟨"http", "host", none, [""]⟩ (AuthenticationData.from_access_token "abc")

/-- `https://host` with an access token, as normalized by `Mattermost::new`. -/
def cHttps : Client :=
  Client.new ⟨"https", "host", none, [""]⟩ (AuthenticationData.from_access_token "abc")

/-- A client built from password credentials; its bearer token starts out
absent. -/
def cPassword : Client :=
  Client.new ⟨"http", "host", none, [""]⟩ (AuthenticationData.from_password "me@example.com" "hunter2")

/-- A sample decoded inbound event. -/
def demoEvent : WebsocketEvent :=
  { event := "posted", data := "hello", broadcast := ⟨none, none, "chan", "team"⟩, seq := 2 }

/-- A sample `serde_json::from_str::<WebsocketEvent>` behaviour: the
payload `"good"` decodes to `demoEvent`, everything else is malformed. -/
def demoParse (s : String) : Option WebsocketEvent :=
  if s == "good" then some demoEvent else none

/-- A serialized event whose free-form data payload happens to contain the
string `seq_reply`, although the frame is not a reply. -/
def replyMarkerPayload : String :=
  "\x7b\"event\":\"posted\",\"data\":\"user wrote seq_reply\",\"seq\":7\x7d"

/-- A decode behaviour under which `replyMarkerPayload` parses as a valid
event. -/
def markerParse (s : String) : Option WebsocketEvent :=
  if s == replyMarkerPayload then some demoEvent else none

/-- A sample structured platform error. -/
def demoError : MattermostError :=
  { id := "api.err", message := "boom", request_id := "r1", status_code := 404, is_oauth := false }

/-- A sample `serde_json::from_str::<MattermostError>` behaviour: the body
`"errbody"` decodes to `demoError`, everything else does not decode. -/
def demoParseErr (s : String) : Option MattermostError :=
  if s == "errbody" then some demoError else none

end Mattermost

deriving instance DecidableEq for Except

namespace Mattermost

/-! ## Theorems -/

/-- Path resolution with no `.` or `..` segments just appends the
segments. -/
theorem resolvePath_no_dots : ∀ (segs : List String) (acc : List String),
    (∀ s ∈ segs, s ≠ "." ∧ s ≠ "..") → resolvePath acc segs = acc ++ segs
  | [], acc, _ => by simp [resolvePath]
  | [s], acc, h => by
    have hs := h s (by simp)
    have h1 : (s == "..") = false := by simpa using hs.2
    have h2 : (s == ".") = false := by simpa using hs.1
    simp [resolvePath, h1, h2]
  | s :: s₂ :: rest, acc, h => by
    have hs := h s (by simp)
    have h1 : (s == "..") = false := by simpa using hs.2
    have h2 : (s == ".") = false := by simpa using hs.1
    have ih := resolvePath_no_dots (s₂ :: rest) (acc ++ [s])
      (fun x hx => h x (List.mem_cons_of_mem s hx))
    simp [resolvePath, h1, h2, ih]

/-- C7: for a base URL with the root path, construction rewrites the path
to the fixed `/api/v4/` version prefix; any non-root path is kept
exactly as parsed. -/
theorem new_normalizes_root_path (u : Url) (a : AuthenticationData) :
    (pathString u = "/" →
      (Client.new u a).instance_url = { u with pathSegments := ["api", "v4", ""] } ∧
      pathString (Client.new u a).instance_url = "/api/v4/") ∧
    (pathString u ≠ "/" → (Client.new u a).instance_url = u) := by
  constructor
  · intro h
    have hif : (Client.new u a).instance_url = { u with pathSegments := ["api", "v4", ""] } := by
      simp [Client.new, h]
    exact ⟨hif, by rw [hif]; rfl⟩
  · intro h
    have hb : (pathString u == "/") = false := by simpa using h
    simp [Client.new, hb]

/-- Witness for C7: `http://host` (root path) is normalized to
`http://host/api/v4/`, and the custom path `/ipa/v5/` is preserved. -/
theorem new_normalizes_root_path_witness :
    pathString (Client.new ⟨"http", "host", none, [""]⟩
        (AuthenticationData.from_access_token "abc")).instance_url = "/api/v4/" ∧
    (Client.new ⟨"http", "host", none, ["ipa", "v5", ""]⟩
        (AuthenticationData.from_access_token "abc")).instance_url
      = ⟨"http", "host", none, ["ipa", "v5", ""]⟩ :=
  ⟨((new_normalizes_root_path ⟨"http", "host", none, [""]⟩
      (AuthenticationData.from_access_token "abc")).1 (by decide)).2,
   (new_normalizes_root_path ⟨"http", "host", none, ["ipa", "v5", ""]⟩
      (AuthenticationData.from_access_token "abc")).2 (by decide)⟩

/-- C8: `ws_instance_url` maps an `http` scheme to `ws` and an `https`
scheme to `wss`, keeping host, port and path untouched. -/
theorem ws_instance_url_swaps_scheme (c : Client) :
    (c.instance_url.scheme = "http" →
      c.ws_instance_url.scheme = "ws" ∧
      c.ws_instance_url.host = c.instance_url.host ∧
      c.ws_instance_url.port = c.instance_url.port ∧
      c.ws_instance_url.pathSegments = c.instance_url.pathSegments) ∧
    (c.instance_url.scheme = "https" →
      c.ws_instance_url.scheme = "wss" ∧
      c.ws_instance_url.host = c.instance_url.host ∧
      c.ws_instance_url.port = c.instance_url.port ∧
      c.ws_instance_url.pathSegments = c.instance_url.pathSegments) := by
  constructor
  · intro h
    simp [Client.ws_instance_url, h]
  · intro h
    simp [Client.ws_instance_url, h]

/-- Witness for C8 at `http://host/api/v4/` and `https://host/api/v4/`. -/
theorem ws_instance_url_swaps_scheme_witness :
    cHttp.ws_instance_url.scheme = "ws" ∧ cHttps.ws_instance_url.scheme = "wss" :=
  ⟨((ws_instance_url_swaps_scheme cHttp).1 (by decide)).1,
   ((ws_instance_url_swaps_scheme cHttps).2 (by decide)).1⟩

/-- C3 (amended): for endpoints whose slash-separated segments (after
stripping leading slashes) contain no `.` or `..`, `endpoint_url` keeps
scheme, host and port and appends the segments under the base path's
directory, so a base path ending in `/` — such as the normalized
`/api/v4/` prefix — is preserved in full, never duplicated. -/
theorem endpoint_url_appends_under_api_path (c : Client) (endpoint : String)
    (hsegs : ∀ s ∈ splitOnSlash (trimStartSlashes endpoint), s ≠ "." ∧ s ≠ "..") :
    (c.endpoint_url endpoint).scheme = c.instance_url.scheme ∧
    (c.endpoint_url endpoint).host = c.instance_url.host ∧
    (c.endpoint_url endpoint).port = c.instance_url.port ∧
    (c.endpoint_url endpoint).pathSegments
      = c.instance_url.pathSegments.dropLast ++ splitOnSlash (trimStartSlashes endpoint) := by
  have hres := resolvePath_no_dots (splitOnSlash (trimStartSlashes endpoint))
    c.instance_url.pathSegments.dropLast hsegs
  simp [Client.endpoint_url, Url.join, shortenPath, hres]

/-- Witness for C3 (amended): both `/herp/derp` and `herp/derp` resolve to
`http://host/api/v4/herp/derp`. -/
theorem endpoint_url_appends_under_api_path_witness :
    (cHttp.endpoint_url "/herp/derp").pathSegments = ["api", "v4", "herp", "derp"] ∧
    (cHttp.endpoint_url "herp/derp").pathSegments = ["api", "v4", "herp", "derp"] ∧
    pathString (cHttp.endpoint_url "/herp/derp") = "/api/v4/herp/derp" :=
  ⟨((endpoint_url_appends_under_api_path cHttp "/herp/derp" (by decide)).2.2.2).trans (by decide),
   ((endpoint_url_appends_under_api_path cHttp "herp/derp" (by decide)).2.2.2).trans (by decide),
   by decide⟩

/-- Counterexample for C3: the endpoint `../foo` (leading slashes are the
only thing `endpoint_url` strips) resolves its `..` segment against the
base path, producing `http://host/api/foo`: the `/api/v4/` API-version
prefix is dropped, refuting the claim for arbitrary endpoint strings. -/
theorem endpoint_url_dotdot_escapes_api_path :
    pathString (cHttp.endpoint_url "../foo") = "/api/foo" ∧
    List.isPrefixOf "/api/v4/".data (pathString (cHttp.endpoint_url "../foo")).data = false := by
  decide

/-- C6: with token-based credentials, `store_session_token` returns
success and leaves the whole client state unchanged, whatever login
response the network could have produced — it never consults one, so no
login request is observable. -/
theorem store_session_token_token_noop (c : Client) (resp : LoginResponse)
    (h : c.authentication_data.using_token = true) :
    c.store_session_token resp = Except.ok c := by
  simp [Client.store_session_token, h]

/-- Witness for C6: a client built from an access token is untouched by
`store_session_token`, here shown against two different login responses. -/
theorem store_session_token_token_noop_witness :
    cHttp.store_session_token ⟨200, some "other"⟩ = Except.ok cHttp ∧
    cHttp.store_session_token ⟨500, none⟩ = Except.ok cHttp :=
  ⟨store_session_token_token_noop cHttp ⟨200, some "other"⟩ (by decide),
   store_session_token_token_noop cHttp ⟨500, none⟩ (by decide)⟩

/-- C5: with password credentials (no access token), `store_session_token`
stores exactly the login response's `Token` header value as the bearer
token when the header is present, and fails with `CouldNotGetToken`
carrying the response's status code when it is absent. -/
theorem store_session_token_password_flow (c : Client) (resp : LoginResponse)
    (h : c.authentication_data.using_token = false) :
    (∀ t, resp.token_header = some t →
      c.store_session_token resp = Except.ok { c with auth_token := some t }) ∧
    (resp.token_header = none →
      c.store_session_token resp = Except.error (ApiError.CouldNotGetToken resp.status)) := by
  constructor
  · intro t ht
    simp [Client.store_session_token, h, ht]
  · intro ht
    simp [Client.store_session_token, h, ht]

/-- Witness for C5: a password-credential client stores the header value
`tok123` from a response carrying it, and fails with
`CouldNotGetToken 401` on a 401 response without the header. -/
theorem store_session_token_password_flow_witness :
    cPassword.store_session_token ⟨200, some "tok123"⟩
      = Except.ok { cPassword with auth_token := some "tok123" } ∧
    cPassword.store_session_token ⟨401, none⟩
      = Except.error (ApiError.CouldNotGetToken 401) :=
  ⟨(store_session_token_password_flow cPassword ⟨200, some "tok123"⟩ (by decide)).1
      "tok123" (by decide),
   (store_session_token_password_flow cPassword ⟨401, none⟩ (by decide)).2 (by decide)⟩

/-- C9: with no stored bearer token, the frame-building step of
`connect_to_websocket` hits `.unwrap()` on `None` and panics (modelled as
`none`) instead of producing an error value, while `request_headers` — and
with it `query` and `post` — returns the inspectable `MissingAuthToken`
error in the same state. -/
theorem connect_panics_without_token (c : Client) (h : c.auth_token = none) :
    c.connect_auth_frame = none ∧
    c.request_headers = Except.error ApiError.MissingAuthToken := by
  constructor
  · simp [Client.connect_auth_frame, h]
  · simp [Client.request_headers, h]

/-- Witness for C9: a freshly constructed password-credential client has
no bearer token, so the connect path has no error value to return while
the REST path reports `MissingAuthToken`. -/
theorem connect_panics_without_token_witness :
    cPassword.connect_auth_frame = none ∧
    cPassword.request_headers = Except.error ApiError.MissingAuthToken :=
  connect_panics_without_token cPassword (by decide)

/-- C4: on a non-2xx response, both `query` and `post` classify the
failure the same way: a body that decodes as the structured platform
error surfaces as `MattermostApiError` carrying the decoded fields; a
body that does not decode — or a body that cannot be read at all —
surfaces as `StatusCodeError` carrying the raw status code. -/
theorem non2xx_response_classification {T : Type}
    (parseErr : String → Option MattermostError) (decode : String → Option T)
    (resp : HttpResponse) (h : statusIsSuccess resp.status = false) :
    (∀ text data, resp.text = some text → parseErr text = some data →
      query_handle_response parseErr decode resp
          = Except.error (ApiError.MattermostApiError data) ∧
      post_handle_response parseErr decode resp
          = Except.error (ApiError.MattermostApiError data)) ∧
    (∀ text, resp.text = some text → parseErr text = none →
      query_handle_response parseErr decode resp
          = Except.error (ApiError.StatusCodeError resp.status) ∧
      post_handle_response parseErr decode resp
          = Except.error (ApiError.StatusCodeError resp.status)) ∧
    (resp.text = none →
      query_handle_response parseErr decode resp
          = Except.error (ApiError.StatusCodeError resp.status) ∧
      post_handle_response parseErr decode resp
          = Except.error (ApiError.StatusCodeError resp.status)) := by
  refine ⟨?_, ?_, ?_⟩
  · intro text data ht hp
    constructor
    · simp [query_handle_response, h, ht, hp]
    · simp [post_handle_response, h, ht, hp]
  · intro text ht hp
    constructor
    · simp [query_handle_response, h, ht, hp]
    · simp [post_handle_response, h, ht, hp]
  · intro ht
    constructor
    · simp [query_handle_response, h, ht]
    · simp [post_handle_response, h, ht]

/-- Witness for C4 at `T := Nat` with a decoder that never succeeds: a 404
whose body decodes as the platform error yields `MattermostApiError
demoError`, and a 500 with an undecodable body yields
`StatusCodeError 500`, on both the `query` and `post` paths. -/
theorem non2xx_response_classification_witness :
    query_handle_response demoParseErr (fun _ => (none : Option Nat)) ⟨404, some "errbody"⟩
        = Except.error (ApiError.MattermostApiError demoError) ∧
    post_handle_response demoParseErr (fun _ => (none : Option Nat)) ⟨404, some "errbody"⟩
        = Except.error (ApiError.MattermostApiError demoError) ∧
    query_handle_response demoParseErr (fun _ => (none : Option Nat)) ⟨500, some "junk"⟩
        = Except.error (ApiError.StatusCodeError 500) ∧
    post_handle_response demoParseErr (fun _ => (none : Option Nat)) ⟨500, some "junk"⟩
        = Except.error (ApiError.StatusCodeError 500) := by
  have h404 := (non2xx_response_classification demoParseErr (fun _ => (none : Option Nat))
      ⟨404, some "errbody"⟩ (by decide)).1 "errbody" demoError (by decide) (by decide)
  have h500 := ((non2xx_response_classification demoParseErr (fun _ => (none : Option Nat))
      ⟨500, some "junk"⟩ (by decide)).2.1) "junk" (by decide) (by decide)
  exact ⟨h404.1, h404.2, h500.1, h500.2⟩

/-- C2: a text frame whose payload contains the `seq_reply` marker is
discarded — `handle_event` succeeds without calling the handler — and a
text frame without the marker whose payload decodes as an event makes
`handle_event` call the handler exactly once, with the decoded event. -/
theorem handle_event_reply_skip_and_dispatch (parse : String → Option WebsocketEvent)
    (text : String) :
    (strContains text "seq_reply" = true →
      Client.handle_event parse (Message.text text) = Except.ok (false, [])) ∧
    (∀ ev, strContains text "seq_reply" = false → parse text = some ev →
      Client.handle_event parse (Message.text text) = Except.ok (false, [ev])) := by
  constructor
  · intro h
    simp [Client.handle_event, h]
  · intro ev h hp
    simp [Client.handle_event, h, hp]

/-- Witness for C2: the frame `"x seq_reply y"` produces no handler call;
the frame `"good"`, which `demoParse` decodes to `demoEvent`, produces
exactly the one call `demoEvent`. -/
theorem handle_event_reply_skip_and_dispatch_witness :
    Client.handle_event demoParse (Message.text "x seq_reply y") = Except.ok (false, []) ∧
    Client.handle_event demoParse (Message.text "good") = Except.ok (false, [demoEvent]) :=
  ⟨(handle_event_reply_skip_and_dispatch demoParse "x seq_reply y").1 (by decide),
   (handle_event_reply_skip_and_dispatch demoParse "good").2 demoEvent (by decide) (by decide)⟩

/-- C10: reply detection is a bare substring test on the whole frame text
(`text.contains("seq_reply")`), so any frame containing the marker
anywhere is discarded without the handler being consulted — for every
decode function, including ones under which the frame is a valid event. -/
theorem reply_marker_substring_discards (parse : String → Option WebsocketEvent)
    (text : String) (h : strContains text "seq_reply" = true) :
    Client.handle_event parse (Message.text text) = Except.ok (false, []) := by
  simp [Client.handle_event, h]

/-- Witness for C10: `replyMarkerPayload` is a serialized non-reply event
whose data payload merely mentions `seq_reply`; it decodes under
`markerParse`, yet `handle_event` discards it without a handler call. -/
theorem reply_marker_substring_discards_witness :
    strContains replyMarkerPayload "seq_reply" = true ∧
    markerParse replyMarkerPayload = some demoEvent ∧
    Client.handle_event markerParse (Message.text replyMarkerPayload) = Except.ok (false, []) :=
  ⟨by decide, by decide,
   reply_marker_substring_discards markerParse replyMarkerPayload (by decide)⟩

/-- C1 (amended): a parse failure on a marker-free text frame is fatal to
the connection: `handle_event` turns it into `JsonProcessingError`, and
`receive_events` propagates that error out of the loop at once, so the
frames after the malformed one are never processed. -/
theorem receive_events_parse_failure_terminates (parse : String → Option WebsocketEvent)
    (text : String) (rest : List (Except Unit Message))
    (h : strContains text "seq_reply" = false) (hp : parse text = none) :
    Client.receive_events parse (Except.ok (Message.text text) :: rest)
      = Except.error ApiError.JsonProcessingError := by
  simp [Client.receive_events, Client.handle_event, h, hp]

/-- Witness for C1 (amended): with the malformed frame `"bad"` at the head
of the stream, the loop stops with `JsonProcessingError` whatever follows. -/
theorem receive_events_parse_failure_terminates_witness :
    Client.receive_events demoParse
        [Except.ok (Message.text "bad"), Except.ok (Message.text "good"), Except.ok Message.close]
      = Except.error ApiError.JsonProcessingError :=
  receive_events_parse_failure_terminates demoParse "bad"
    [Except.ok (Message.text "good"), Except.ok Message.close] (by decide) (by decide)

/-- Counterexample for C1 as stated: after the malformed frame `"bad"`,
the stream still holds the valid frame `"good"` (which decodes to
`demoEvent`) and a clean close; were the loop to survive the malformed
frame, the run would end in `Except.ok [demoEvent]`.  Instead it
terminates with `JsonProcessingError` and the valid event is never
delivered. -/
theorem receive_events_malformed_frame_kills_connection :
    Client.receive_events demoParse
        [Except.ok (Message.text "bad"), Except.ok (Message.text "good"), Except.ok Message.close]
      = Except.error ApiError.JsonProcessingError ∧
    Client.receive_events demoParse
        [Except.ok (Message.text "bad"), Except.ok (Message.text "good"), Except.ok Message.close]
      ≠ Except.ok [demoEvent] ∧
    Client.receive_events demoParse
        [Except.ok (Message.text "good"), Except.ok Message.close]
      = Except.ok [demoEvent] := by
  refine ⟨by decide, by decide, by decide⟩

end Mattermost
